import Mathlib

/-!
Verification of the banking-employee work-day simulator
(`SettingUpDummyEnv.py`, class `BankingEmployeeSimulator`).

The Python program is shallowly embedded: each random primitive
(`random.random`, `random.uniform`, `random.randint`, `random.choice`,
`random.choices`) is modelled as a pure function of an explicit draw
`r : ℚ` taken from the unit interval, wall-clock time is an explicit
rational number of seconds, and the scheduler loop `simulate_work_day`
is a fuel-indexed step function over a stream of per-iteration
environments.  Exceptions are modelled with `Except`.
-/

/-- Model of Python `random.uniform(a, b)`: returns `a + (b - a) * r`
where `r` is the underlying `random.random()` draw in `[0, 1]`. -/
def random_uniform (a b r : ℚ) : ℚ := a + (b - a) * r

/-- Model of Python `random.randint(a, b)` (both endpoints included):
`a + ⌊r * (b + 1 - a)⌋` for a draw `r ∈ [0, 1)`. -/
def random_randint (a b : ℕ) (r : ℚ) : ℕ :=
  a + (Int.floor (r * ((b : ℚ) + 1 - (a : ℚ)))).toNat

/-- Model of Python `round(x, 1)`: round to one decimal digit. -/
def round1 (x : ℚ) : ℚ := ((round (10 * x) : ℤ) : ℚ) / 10

/-- Model of Python `random.choice(seq)`: index `⌊r * len(seq)⌋`.
`fallback` is only reached on an empty sequence. -/
def random_choice {α : Type} (fallback : α) (l : List α) (r : ℚ) : α :=
  l.getD (Int.floor (r * (l.length : ℚ))).toNat fallback

theorem le_random_randint (a b : ℕ) (r : ℚ) : a ≤ random_randint a b r :=
  Nat.le_add_right _ _

theorem random_randint_le (a b : ℕ) (r : ℚ) (hab : a ≤ b)
    (h0 : 0 ≤ r) (h1 : r < 1) : random_randint a b r ≤ b := by
  unfold random_randint
  have hcast : (a : ℚ) ≤ (b : ℚ) := by exact_mod_cast hab
  have hn : (0 : ℚ) < (b : ℚ) + 1 - (a : ℚ) := by linarith
  have hfl : Int.floor (r * ((b : ℚ) + 1 - (a : ℚ))) < (b : ℤ) + 1 - (a : ℤ) := by
    rw [Int.floor_lt]
    push_cast
    nlinarith
  have hnn : (0 : ℤ) ≤ Int.floor (r * ((b : ℚ) + 1 - (a : ℚ))) := by
    apply Int.floor_nonneg.mpr
    positivity
  omega

theorem random_uniform_bounds (a b r : ℚ) (hab : a ≤ b) (h0 : 0 ≤ r) (h1 : r ≤ 1) :
    a ≤ random_uniform a b r ∧ random_uniform a b r ≤ b := by
  unfold random_uniform
  constructor
  · nlinarith
  · nlinarith

theorem round1_bounds (x : ℚ) (hlo : 15 / 2 ≤ x) (hhi : x ≤ 9) :
    15 / 2 ≤ round1 x ∧ round1 x ≤ 9 := by
  unfold round1
  rw [round_eq]
  constructor
  · have h75 : (75 : ℤ) ≤ Int.floor (10 * x + 1 / 2) := by
      rw [Int.le_floor]
      push_cast
      linarith
    have h75q : ((75 : ℤ) : ℚ) ≤ ((Int.floor (10 * x + 1 / 2) : ℤ) : ℚ) := by
      exact_mod_cast h75
    push_cast at h75q
    linarith
  · have h91 : Int.floor (10 * x + 1 / 2) < 91 := by
      rw [Int.floor_lt]
      push_cast
      linarith
    have h90 : Int.floor (10 * x + 1 / 2) ≤ 90 := by omega
    have h90q : ((Int.floor (10 * x + 1 / 2) : ℤ) : ℚ) ≤ ((90 : ℤ) : ℚ) := by
      exact_mod_cast h90
    push_cast at h90q
    linarith

/-- One of the four top-level activity categories of the simulator
(the four `simulate_*` methods wired into `work_activities`). -/
inductive Activity
  | FileOperations
  | ApplicationUsage
  | NetworkActivity
  | SecurityAction
deriving DecidableEq, Repr

/-- The weighted catalog hard-coded in `simulate_work_day`
(lines 336-341): file ops 0.4, application usage 0.3, network 0.2,
security 0.1. -/
def work_activities : List (Activity × ℚ) :=
  [(Activity.FileOperations, 4 / 10), (Activity.ApplicationUsage, 3 / 10),
   (Activity.NetworkActivity, 2 / 10), (Activity.SecurityAction, 1 / 10)]

/-- Errors raised by Python `random.choices`: `IndexError` on an empty
population, `ValueError` when the weights sum to a non-positive total. -/
inductive ChoiceError
  | emptyPopulation
  | nonpositiveTotal
deriving DecidableEq, Repr

/-- Walk the cumulative weights, as `bisect.bisect` does inside
`random.choices` with `hi = len - 1`: return the first entry whose
cumulative weight exceeds the target, clamping to the last entry. -/
def pickByWeight {α : Type} : List (α × ℚ) → ℚ → Option α
  | [], _ => none
  | [(a, _)], _ => some a
  | (a, w) :: p :: rest, t => if t < w then some a else pickByWeight (p :: rest) (t - w)

/-- Model of `random.choices(population, weights=ws)[0]` with draw `r`:
raises on an empty population or a non-positive total weight, otherwise
picks by cumulative weight with target `r * total`. -/
def randomChoices {α : Type} (pop : List (α × ℚ)) (r : ℚ) : Except ChoiceError α :=
  match pop with
  | [] => Except.error ChoiceError.emptyPopulation
  | _ =>
    if (pop.map Prod.snd).sum ≤ 0 then Except.error ChoiceError.nonpositiveTotal
    else
      match pickByWeight pop (r * (pop.map Prod.snd).sum) with
      | some a => Except.ok a
      | none => Except.error ChoiceError.emptyPopulation

/-- The two business-hour regimes of the spec. -/
inductive Regime
  | WorkHours
  | AfterHours
deriving DecidableEq, Repr

/-- The business-hours policy inlined in `simulate_work_day`
(line 354): `if 9 <= current_hour <= 17` selects the high-activity
branch, otherwise the low-activity branch. -/
def regime_for (hour : ℕ) : Regime :=
  if 9 ≤ hour ∧ hour ≤ 17 then Regime.WorkHours else Regime.AfterHours

theorem regime_for_eq_work (hour : ℕ) :
    regime_for hour = Regime.WorkHours ↔ (9 ≤ hour ∧ hour ≤ 17) := by
  unfold regime_for
  split <;> simp_all

theorem regime_for_eq_after (hour : ℕ) :
    regime_for hour = Regime.AfterHours ↔ ¬(9 ≤ hour ∧ hour ≤ 17) := by
  unfold regime_for
  split <;> simp_all

/-- Per-iteration environment of the scheduler loop: the wall-clock
hour read via `datetime.now().hour`, the random draws consumed by the
iteration, whether the selected unit of work raises a (non-interrupt)
exception, and how long the unit of work dwells when it succeeds. -/
structure IterEnv where
  hour : ℕ
  selectDraw : ℚ
  coinDraw : ℚ
  pauseDraw : ℚ
  execFails : Bool
  dwell : ℚ
deriving DecidableEq, Repr

/-- A line written to the simulator's log during one loop iteration:
either a successful activity (`logger.info` in the `simulate_*`
methods) or the `logger.error` line of the generic exception handler. -/
inductive LogEntry
  | success (a : Activity)
  | failure
deriving DecidableEq, Repr

/-- Observable result of one iteration of the `while self.is_running`
body: which regime branch ran, which activity's unit of work (if any)
was invoked, the log lines produced, and the simulated seconds the
iteration consumed (dwell plus pacing, or the 60 s backoff). -/
structure IterResult where
  branch : Regime
  executed : Option Activity
  entries : List LogEntry
  elapsed : ℚ
deriving DecidableEq, Repr

/-- The work-hours branch of the loop body (lines 355-361): weighted
selection over the catalog, then execution; a raising unit of work is
caught by `except Exception`, logged once and followed by a fixed 60 s
sleep; on success the loop paces `random.uniform(30, 300)`. -/
def workIter (catalog : List (Activity × ℚ)) (e : IterEnv) : IterResult :=
  match randomChoices catalog e.selectDraw with
  | Except.error _ =>
    { branch := Regime.WorkHours, executed := none,
      entries := [LogEntry.failure], elapsed := 60 }
  | Except.ok a =>
    if e.execFails then
      { branch := Regime.WorkHours, executed := some a,
        entries := [LogEntry.failure], elapsed := 60 }
    else
      { branch := Regime.WorkHours, executed := some a,
        entries := [LogEntry.success a],
        elapsed := e.dwell + random_uniform 30 300 e.pauseDraw }

/-- The after-hours branch of the loop body (lines 363-366): a coin
flip `random.random() < 0.1` decides whether `simulate_security_actions`
runs; either way the branch paces `random.uniform(300, 1800)`, except
that a raising security action falls into the 60 s backoff instead. -/
def afterIter (e : IterEnv) : IterResult :=
  if e.coinDraw < 1 / 10 then
    if e.execFails then
      { branch := Regime.AfterHours, executed := some Activity.SecurityAction,
        entries := [LogEntry.failure], elapsed := 60 }
    else
      { branch := Regime.AfterHours, executed := some Activity.SecurityAction,
        entries := [LogEntry.success Activity.SecurityAction],
        elapsed := e.dwell + random_uniform 300 1800 e.pauseDraw }
  else
    { branch := Regime.AfterHours, executed := none, entries := [],
      elapsed := random_uniform 300 1800 e.pauseDraw }

/-- One iteration of the body of `while self.is_running` in
`simulate_work_day` (lines 350-373). -/
def iterStep (catalog : List (Activity × ℚ)) (e : IterEnv) : IterResult :=
  if 9 ≤ e.hour ∧ e.hour ≤ 17 then workIter catalog e else afterIter e

/-- The value of `self.is_running` observed at simulated time `t` when
an external `stop_simulation()` call happens at time `stopAt` (if any).
`stop_simulation` merely assigns `self.is_running = False`; nothing
wakes an in-progress `time.sleep`, so the flag is only consulted at the
`while` test. -/
def flagAt (stopAt : Option ℚ) (t : ℚ) : Bool :=
  match stopAt with
  | none => true
  | some s => decide (t < s)

/-- Fuel-indexed run of the `while self.is_running` loop of
`simulate_work_day`, starting at simulated time `t`: tests the flag,
runs one iteration, advances the clock by the iteration's whole elapsed
time (its sleeps are plain, uninterruptible `time.sleep` calls), and
recurses.  Returns the time at which the loop exits and the log lines
produced, in order. -/
def loopRun (catalog : List (Activity × ℚ)) (stopAt : Option ℚ) :
    ℕ → (ℕ → IterEnv) → ℚ → ℚ × List LogEntry
  | 0, _, t => (t, [])
  | fuel + 1, env, t =>
    if flagAt stopAt t then
      let r := iterStep catalog (env 0)
      let rest := loopRun catalog stopAt fuel (fun n => env (n + 1)) (t + r.elapsed)
      (rest.1, r.entries ++ rest.2)
    else (t, [])

/-- Control state of the simulator relevant to `stop_simulation`
(lines 385-388): the `is_running` flag and the human-readable log. -/
structure SimCtl where
  is_running : Bool
  log : List String
deriving DecidableEq, Repr

/-- `stop_simulation` (lines 385-388): unconditionally sets
`is_running = False` and unconditionally writes the stopped banner via
`self.logger.info`. -/
def stop_simulation (s : SimCtl) : SimCtl :=
  { is_running := false,
    log := s.log ++ ["Banking employee simulation stopped"] }

/-- The components of `datetime.now()` the program reads. -/
structure Timestamp where
  year : ℕ
  month : ℕ
  day : ℕ
  hour : ℕ
deriving DecidableEq, Repr

/-- The six `random` draws consumed by `generate_daily_report`, in
source order. -/
structure ReportDraws where
  filesR : ℚ
  appsR : ℚ
  netR : ℚ
  secR : ℚ
  hoursR : ℚ
  suspR : ℚ
deriving DecidableEq, Repr

/-- The report dictionary built by `generate_daily_report`
(lines 390-409). -/
structure DailyReport where
  date : ℕ × ℕ × ℕ
  employee : String
  department : String
  files_created : ℕ
  applications_used : ℕ
  network_activities : ℕ
  security_events : ℕ
  work_hours : ℚ
  suspicious_activities : ℕ
deriving DecidableEq, Repr

/-- `generate_daily_report` (lines 390-409): fabricates counters with
fresh `random.randint` / `random.uniform` draws, stamps the current
date, and attaches the employee and department labels unchanged. -/
def generate_daily_report (employee department : String) (now : Timestamp)
    (d : ReportDraws) : DailyReport :=
  { date := (now.year, now.month, now.day)
    employee := employee
    department := department
    files_created := random_randint 5 15 d.filesR
    applications_used := random_randint 3 8 d.appsR
    network_activities := random_randint 10 25 d.netR
    security_events := random_randint 2 8 d.secR
    work_hours := round1 (random_uniform (15 / 2) 9 d.hoursR)
    suspicious_activities := random_randint 0 2 d.suspR }

/-- A regular file in the simulated workspace, identified by the
subdirectory of `work_dir` that holds it, its name, and its content. -/
structure FileRec where
  dir : String
  name : String
  content : String
deriving DecidableEq, Repr

/-- The workspace file system visible to `backup_files`: the regular
files and the set of directories that exist under `work_dir`. -/
structure FileSys where
  files : List FileRec
  dirs : List String
deriving DecidableEq, Repr

/-- `Path.mkdir(parents=True, exist_ok=True)`: create the directory if
absent, succeed silently if it already exists. -/
def mkdir_p (fs : FileSys) (d : String) : FileSys :=
  if d ∈ fs.dirs then fs else { fs with dirs := fs.dirs ++ [d] }

/-- The dated backup directory `Backups/<YYYYMMDD>` used by
`backup_files` (line 210). -/
def backup_dir_name (dateStr : String) : String := "Backups/" ++ dateStr

/-- `backup_files` (lines 208-225): creates the dated backup directory,
then iterates over the files of `Financial_Reports` and `Client_Data`
sleeping 0.1 s per file — the comment in the source says "Simulate file
copy without actually copying" — and finally dwells
`random.uniform(5, 10)`.  It writes no file and modifies none.  Returns
the resulting file system and the elapsed simulated seconds. -/
def backup_files (fs : FileSys) (dateStr : String) (r : ℚ) : FileSys × ℚ :=
  let fs2 := mkdir_p fs (backup_dir_name dateStr)
  let n := (fs.files.filter
    (fun f => f.dir = "Financial_Reports" ∨ f.dir = "Client_Data")).length
  (fs2, (1 / 10) * (n : ℚ) + random_uniform 5 10 r)

/-- The fixed roster of security actions in
`simulate_security_actions` (lines 306-313). -/
def security_actions : List String :=
  ["Password policy compliance check",
   "Two-factor authentication verification",
   "Security certificate validation",
   "Encrypted file access",
   "Audit log review",
   "Security policy acknowledgment"]

/-- One JSON line appended to `security_events.log` by
`simulate_security_actions` (lines 319-330). -/
structure SecurityEvent where
  timestamp : Timestamp
  employee : String
  action : String
  result : String
  ip_address : String
  department : String
deriving DecidableEq, Repr

/-- `simulate_security_actions` (lines 304-332): picks an action with
`random.choice`, appends one structured record whose `result` field is
the literal `"Success"` and whose `ip_address` is
`192.168.1.{random.randint(100, 200)}`, then dwells
`random.uniform(2, 4)`.  Returns the appended record and the dwell. -/
def simulate_security_actions (employee department : String) (now : Timestamp)
    (actionR ipR dwellR : ℚ) : SecurityEvent × ℚ :=
  ({ timestamp := now
     employee := employee
     action := random_choice "Password policy compliance check" security_actions actionR
     result := "Success"
     ip_address := "192.168.1." ++ toString (random_randint 100 200 ipR)
     department := department },
   random_uniform 2 4 dwellR)

/-- The places inside the running `while self.is_running` loop at which
a `KeyboardInterrupt` (Ctrl-C) can be delivered: inside the `try` body
(activities and sleeps — the overwhelmingly likely spot), or at the
`while` condition test itself, which sits outside the `try`. -/
inductive InterruptPoint
  | duringBody
  | atLoopCheck
deriving DecidableEq, Repr

/-- `simulate_work_day` (lines 350-373) when a `KeyboardInterrupt`
arrives while the loop is running.  An interrupt inside the `try` body
is caught by the loop's own `except KeyboardInterrupt` (lines 368-370),
which logs and `break`s, so the function returns normally (`Except.ok`).
Only an interrupt at the `while` test itself escapes the function
(`Except.error`). -/
def simulate_work_day_onInterrupt : InterruptPoint → Except Unit Unit
  | InterruptPoint.duringBody => Except.ok ()
  | InterruptPoint.atLoopCheck => Except.error ()

/-- `start_simulation` (lines 375-383) under the same interrupt: it
wraps `simulate_work_day` in its own `except KeyboardInterrupt`, which
calls `stop_simulation()`.  The returned flag records whether
`stop_simulation` was called; in no case does the interrupt escape to
the caller. -/
def start_simulation_onInterrupt (ip : InterruptPoint) : Except Unit Bool :=
  match simulate_work_day_onInterrupt ip with
  | Except.ok _ => Except.ok false
  | Except.error _ => Except.ok true

/-- Externally observable outcome of `main` (lines 411-442) for a run
whose loop is interrupted: whether `stop_simulation` ran, whether
`generate_daily_report` ran and the final report was printed to
standard output, and the process exit status. -/
structure MainResult where
  stopCalled : Bool
  reportGenerated : Bool
  reportPrinted : Bool
  exitCode : ℕ
deriving DecidableEq, Repr

/-- `main` (lines 432-442): `simulator.start_simulation()` inside
`try`; its `except KeyboardInterrupt` branch — the only place that
calls `generate_daily_report` and prints the final report — runs only
if the interrupt escapes `start_simulation`.  Since every handled path
returns normally with exit status 0, the report branch is reached only
via `Except.error`. -/
def main_onInterrupt (ip : InterruptPoint) : MainResult :=
  match start_simulation_onInterrupt ip with
  | Except.ok stopped =>
    { stopCalled := stopped, reportGenerated := false,
      reportPrinted := false, exitCode := 0 }
  | Except.error _ =>
    { stopCalled := true, reportGenerated := true,
      reportPrinted := true, exitCode := 0 }


theorem iterStep_branch (catalog : List (Activity × ℚ)) (e : IterEnv) :
    (iterStep catalog e).branch = regime_for e.hour := by
  unfold iterStep regime_for
  by_cases h : 9 ≤ e.hour ∧ e.hour ≤ 17
  · rw [if_pos h, if_pos h]
    unfold workIter
    cases randomChoices catalog e.selectDraw with
    | error err => rfl
    | ok a => by_cases hf : e.execFails <;> simp [hf]
  · rw [if_neg h, if_neg h]
    unfold afterIter
    by_cases hcoin : e.coinDraw < 1 / 10
    · rw [if_pos hcoin]
      by_cases hf : e.execFails <;> simp [hf]
    · rw [if_neg hcoin]

theorem iterStep_fail (catalog : List (Activity × ℚ)) (e : IterEnv)
    (hfail : e.execFails = true)
    (hexec : (iterStep catalog e).executed.isSome = true) :
    (iterStep catalog e).entries = [LogEntry.failure] ∧
    (iterStep catalog e).elapsed = 60 := by
  unfold iterStep workIter afterIter at hexec ⊢
  by_cases h : 9 ≤ e.hour ∧ e.hour ≤ 17
  · rw [if_pos h] at hexec ⊢
    cases hc : randomChoices catalog e.selectDraw with
    | error err => rw [hc] at hexec; simp at hexec
    | ok a => simp [hfail]
  · rw [if_neg h] at hexec ⊢
    by_cases hcoin : e.coinDraw < 1 / 10
    · rw [if_pos hcoin] at hexec ⊢
      simp [hfail]
    · rw [if_neg hcoin] at hexec
      simp at hexec

theorem loopRun_succ_true (catalog : List (Activity × ℚ)) (stopAt : Option ℚ)
    (fuel : ℕ) (env : ℕ → IterEnv) (t : ℚ) (h : flagAt stopAt t = true) :
    loopRun catalog stopAt (fuel + 1) env t =
      ((loopRun catalog stopAt fuel (fun n => env (n + 1))
          (t + (iterStep catalog (env 0)).elapsed)).1,
       (iterStep catalog (env 0)).entries ++
         (loopRun catalog stopAt fuel (fun n => env (n + 1))
           (t + (iterStep catalog (env 0)).elapsed)).2) := by
  rw [loopRun]
  simp [h]

theorem loopRun_succ_false (catalog : List (Activity × ℚ)) (stopAt : Option ℚ)
    (fuel : ℕ) (env : ℕ → IterEnv) (t : ℚ) (h : flagAt stopAt t = false) :
    loopRun catalog stopAt (fuel + 1) env t = (t, []) := by
  rw [loopRun]
  simp [h]

theorem iterStep_empty (e : IterEnv) (h : 9 ≤ e.hour ∧ e.hour ≤ 17) :
    iterStep [] e = IterResult.mk Regime.WorkHours none [LogEntry.failure] 60 := by
  unfold iterStep
  rw [if_pos h]
  rfl

theorem loopRun_empty_catalog :
    ∀ (fuel : ℕ) (env : ℕ → IterEnv),
      (∀ n, 9 ≤ (env n).hour ∧ (env n).hour ≤ 17) →
      ∀ t : ℚ, loopRun [] none fuel env t =
        (t + 60 * (fuel : ℚ), List.replicate fuel LogEntry.failure) := by
  intro fuel
  induction fuel with
  | zero =>
    intro env hw t
    simp [loopRun]
  | succ n ih =>
    intro env hw t
    rw [loopRun_succ_true [] none n env t rfl, iterStep_empty (env 0) (hw 0)]
    simp only [ih (fun k => env (k + 1)) (fun k => hw (k + 1))]
    simp only [Prod.mk.injEq, List.singleton_append]
    constructor
    · push_cast
      ring
    · simp [List.replicate_succ]

/-- Environment of a work-hours iteration with a failing unit of work. -/
def workFailEnv : IterEnv :=
  { hour := 10, selectDraw := 0, coinDraw := 0, pauseDraw := 0,
    execFails := true, dwell := 0 }

/-- Environment of a work-hours iteration whose unit of work succeeds
(used against the empty catalog, where selection itself raises). -/
def workHourEnv : IterEnv :=
  { hour := 10, selectDraw := 0, coinDraw := 0, pauseDraw := 0,
    execFails := false, dwell := 0 }

/-- Environment of an idle after-hours iteration whose pacing draw is
maximal: the loop sleeps the full `random.uniform(300, 1800) = 1800`
seconds. -/
def afterIdleEnv : IterEnv :=
  { hour := 18, selectDraw := 0, coinDraw := 1 / 2, pauseDraw := 1,
    execFails := false, dwell := 0 }

theorem iterStep_afterIdleEnv :
    iterStep work_activities afterIdleEnv =
      IterResult.mk Regime.AfterHours none [] 1800 := by
  norm_num [iterStep, afterIdleEnv, afterIter, random_uniform]

/-- C1, counterexample.  Start the loop at time 0 in after-hours with a
pacing sleep lasting until time 1800, and let `stop_simulation()` set
the flag at time 100 — in the middle of that in-progress sleep.  The
sleep is a plain `time.sleep`, so nothing wakes the loop: it exits only
at time 1800, not within a short (under 1 s) window after the stop.
This refutes the claim that a stop during a pacing sleep ends the loop
within a short bounded wake-up window. -/
theorem C1_sleep_not_interruptible_counterexample :
    flagAt (some 100) 0 = true ∧
    (iterStep work_activities afterIdleEnv).elapsed = 1800 ∧
    loopRun work_activities (some 100) 2 (fun _ => afterIdleEnv) 0 = (1800, []) ∧
    ¬((1800 : ℚ) ≤ 100 + 1) := by
  have h1 : loopRun work_activities (some 100) 1 (fun _ => afterIdleEnv) 1800 =
      (1800, []) :=
    loopRun_succ_false work_activities (some 100) 0 (fun _ => afterIdleEnv) 1800
      (by decide)
  refine ⟨by decide, by rw [iterStep_afterIdleEnv], ?_, by norm_num⟩
  show loopRun work_activities (some 100) (1 + 1) (fun _ => afterIdleEnv) 0 = (1800, [])
  rw [loopRun_succ_true work_activities (some 100) 1 (fun _ => afterIdleEnv) 0
    (by decide)]
  simp only [iterStep_afterIdleEnv]
  norm_num [h1]

/-- C1, amended.  The `is_running` flag is the sole authority at the
loop's test point: whenever the flag is already false when
`while self.is_running` is evaluated, the loop performs no further
activity, logs nothing, and exits immediately.  (What the original
claim got wrong is only the wake-up window: an in-progress `time.sleep`
is not interruptible, so a stop issued mid-sleep is observed only after
the full randomized sleep elapses.) -/
theorem C1_running_flag_authority (catalog : List (Activity × ℚ))
    (stopAt : Option ℚ) (fuel : ℕ) (env : ℕ → IterEnv) (t : ℚ)
    (hstop : flagAt stopAt t = false) :
    loopRun catalog stopAt fuel env t = (t, []) := by
  cases fuel with
  | zero => rfl
  | succ n => exact loopRun_succ_false catalog stopAt n env t hstop

theorem C1_running_flag_authority_witness :
    flagAt (some 0) 5 = false ∧
    loopRun work_activities (some 0) 3 (fun _ => afterIdleEnv) 5 = (5, []) :=
  ⟨by decide,
   C1_running_flag_authority work_activities (some 0) 3 (fun _ => afterIdleEnv) 5
     (by decide)⟩

/-- C2.  When a `KeyboardInterrupt` is delivered while the scheduler
loop is running, the loop's own `except KeyboardInterrupt` (or, at the
`while` test, `start_simulation`'s handler) absorbs it, so the
`except KeyboardInterrupt` branch of `main` — the only code that calls
`generate_daily_report` and prints the final report — never runs: the
process exits 0 without emitting any DailyReport and, in the common
in-body case, without even calling `stop_simulation`.  The dead
report-printing branch in `main` shows the claim matches the intent,
so the code, not the claim, is at fault. -/
theorem C2_interrupt_report_never_emitted :
    main_onInterrupt InterruptPoint.duringBody =
      { stopCalled := false, reportGenerated := false,
        reportPrinted := false, exitCode := 0 } ∧
    (∀ ip : InterruptPoint, (main_onInterrupt ip).reportGenerated = false ∧
      (main_onInterrupt ip).reportPrinted = false ∧
      (main_onInterrupt ip).exitCode = 0) := by
  refine ⟨rfl, ?_⟩
  intro ip
  cases ip <;> exact ⟨rfl, rfl, rfl⟩

/-- C3, counterexample.  Run the loop over an empty catalog during work
hours for two iterations: `random.choices` raises each time, the
generic `except Exception` absorbs it, and the loop logs a failure,
backs off 60 s and tries again — the second failure line shows the loop
retried instead of treating the unselectable catalog as fatal. -/
theorem C3_empty_catalog_retries_counterexample :
    loopRun [] none 2 (fun _ => workHourEnv) 0 =
      (120, [LogEntry.failure, LogEntry.failure]) ∧
    (loopRun [] none 2 (fun _ => workHourEnv) 0).2.length = 2 := by
  have h := loopRun_empty_catalog 2 (fun _ => workHourEnv)
    (fun _ => (by decide : 9 ≤ workHourEnv.hour ∧ workHourEnv.hour ≤ 17)) 0
  rw [h]
  norm_num [List.replicate_succ]

/-- C3, amended.  Selection on an empty catalog, or on one whose
weights sum to a non-positive total, does fail with an error and never
returns a category — but the scheduler loop does not treat that failure
as fatal: the generic handler logs one failure per iteration, sleeps
60 s, and retries, so with an unselectable catalog the loop spins
forever (one failure line and 60 s per unit of fuel, for every fuel). -/
theorem C3_invalid_catalog_amended :
    (∀ r : ℚ, randomChoices ([] : List (Activity × ℚ)) r =
      Except.error ChoiceError.emptyPopulation) ∧
    (∀ (pop : List (Activity × ℚ)) (r : ℚ), (pop.map Prod.snd).sum ≤ 0 →
      ∀ a : Activity, randomChoices pop r ≠ Except.ok a) ∧
    (∀ (env : ℕ → IterEnv), (∀ n, 9 ≤ (env n).hour ∧ (env n).hour ≤ 17) →
      ∀ (fuel : ℕ) (t : ℚ), loopRun [] none fuel env t =
        (t + 60 * (fuel : ℚ), List.replicate fuel LogEntry.failure)) := by
  refine ⟨fun r => rfl, ?_, fun env hw fuel t => loopRun_empty_catalog fuel env hw t⟩
  intro pop r hsum a
  cases pop with
  | nil => simp [randomChoices]
  | cons x xs =>
    unfold randomChoices
    rw [if_pos hsum]
    simp

theorem C3_invalid_catalog_amended_witness :
    loopRun [] none 2 (fun _ => workHourEnv) 0 =
      ((0 : ℚ) + 60 * ((2 : ℕ) : ℚ), List.replicate 2 LogEntry.failure) :=
  C3_invalid_catalog_amended.2.2 (fun _ => workHourEnv)
    (fun _ => (by decide : 9 ≤ workHourEnv.hour ∧ workHourEnv.hour ≤ 17)) 2 0

/-- C4.  Whenever the unit of work of the selected activity raises a
(non-interrupt) error, the loop's `except Exception` handler catches
it: exactly one failure line is logged for the iteration, the loop
backs off by exactly the fixed 60 s (no pacing sleep), and the loop
then continues from the next iteration with the flag untouched — the
error neither terminates the loop nor propagates to the caller of
`start_simulation` (the loop function is total and returns only via
the flag or fuel). -/
theorem C4_error_backoff_continues (env : ℕ → IterEnv) (stopAt : Option ℚ)
    (fuel : ℕ) (t : ℚ) (hflag : flagAt stopAt t = true)
    (hfail : (env 0).execFails = true)
    (hexec : (iterStep work_activities (env 0)).executed.isSome = true) :
    loopRun work_activities stopAt (fuel + 1) env t =
      ((loopRun work_activities stopAt fuel (fun n => env (n + 1)) (t + 60)).1,
       LogEntry.failure ::
         (loopRun work_activities stopAt fuel (fun n => env (n + 1)) (t + 60)).2) := by
  have hstep := iterStep_fail work_activities (env 0) hfail hexec
  rw [loopRun_succ_true work_activities stopAt fuel env t hflag, hstep.1, hstep.2]
  simp

theorem selection_zero_draw :
    randomChoices work_activities 0 = Except.ok Activity.FileOperations := by
  norm_num [randomChoices, work_activities, pickByWeight]

theorem C4_error_backoff_continues_witness :
    flagAt none 0 = true ∧
    loopRun work_activities none (1 + 1) (fun _ => workFailEnv) 0 =
      ((loopRun work_activities none 1 (fun _ => workFailEnv) ((0 : ℚ) + 60)).1,
       LogEntry.failure ::
         (loopRun work_activities none 1 (fun _ => workFailEnv) ((0 : ℚ) + 60)).2) := by
  have hexec : (iterStep work_activities workFailEnv).executed.isSome = true := by
    simp [iterStep, workFailEnv, workIter, selection_zero_draw]
  exact ⟨rfl, C4_error_backoff_continues (fun _ => workFailEnv) none 1 0 rfl rfl hexec⟩

/-- C5.  The business-hours policy and the branch the loop takes agree
exactly: every iteration's branch is `regime_for` of the current hour,
`regime_for` classifies WorkHours precisely for hours in the inclusive
range [9, 17] (so the loop takes the full weighted-selection branch
exactly then), and at the boundaries 9 and 17 are WorkHours while 8 and
18 are AfterHours. -/
theorem C5_business_hours_policy :
    (∀ (catalog : List (Activity × ℚ)) (e : IterEnv),
      (iterStep catalog e).branch = regime_for e.hour) ∧
    (∀ hour : ℕ, regime_for hour = Regime.WorkHours ↔ (9 ≤ hour ∧ hour ≤ 17)) ∧
    (∀ hour : ℕ, regime_for hour = Regime.AfterHours ↔ ¬(9 ≤ hour ∧ hour ≤ 17)) ∧
    regime_for 9 = Regime.WorkHours ∧ regime_for 17 = Regime.WorkHours ∧
    regime_for 8 = Regime.AfterHours ∧ regime_for 18 = Regime.AfterHours :=
  ⟨iterStep_branch, regime_for_eq_work, regime_for_eq_after,
   by decide, by decide, by decide, by decide⟩

/-- C6.  In an after-hours iteration (with a non-raising unit of work),
the loop never samples the weighted catalog — the iteration is the
catalog-free `afterIter` — and an independent coin flip decides the
tick: if the draw is below 0.1 the SecurityAction unit of work runs and
is logged, otherwise no activity runs and nothing is logged; in either
case the iteration paces by `random.uniform(300, 1800)`, which always
lies in [300, 1800]. -/
theorem afterIter_ok (e : IterEnv) (hok : e.execFails = false) :
    afterIter e =
      if e.coinDraw < 1 / 10 then
        IterResult.mk Regime.AfterHours (some Activity.SecurityAction)
          [LogEntry.success Activity.SecurityAction]
          (e.dwell + random_uniform 300 1800 e.pauseDraw)
      else
        IterResult.mk Regime.AfterHours none []
          (random_uniform 300 1800 e.pauseDraw) := by
  unfold afterIter
  by_cases hc : e.coinDraw < 1 / 10
  · rw [if_pos hc, if_pos hc, hok]
    simp
  · rw [if_neg hc, if_neg hc]

theorem C6_after_hours_branch (catalog : List (Activity × ℚ)) (e : IterEnv)
    (hafter : regime_for e.hour = Regime.AfterHours)
    (hok : e.execFails = false)
    (h0 : 0 ≤ e.pauseDraw) (h1 : e.pauseDraw ≤ 1) :
    iterStep catalog e = afterIter e ∧
    (afterIter e).executed =
      (if e.coinDraw < 1 / 10 then some Activity.SecurityAction else none) ∧
    (afterIter e).entries =
      (if e.coinDraw < 1 / 10 then [LogEntry.success Activity.SecurityAction] else []) ∧
    (afterIter e).elapsed =
      (if e.coinDraw < 1 / 10 then e.dwell else 0) +
        random_uniform 300 1800 e.pauseDraw ∧
    300 ≤ random_uniform 300 1800 e.pauseDraw ∧
    random_uniform 300 1800 e.pauseDraw ≤ 1800 := by
  have hcond := (regime_for_eq_after e.hour).mp hafter
  have hbounds := random_uniform_bounds 300 1800 e.pauseDraw (by norm_num) h0 h1
  refine ⟨?_, ?_, ?_, ?_, hbounds.1, hbounds.2⟩
  · unfold iterStep
    rw [if_neg hcond]
  · rw [afterIter_ok e hok]
    by_cases hc : e.coinDraw < 1 / 10
    · rw [if_pos hc, if_pos hc]
    · rw [if_neg hc, if_neg hc]
  · rw [afterIter_ok e hok]
    by_cases hc : e.coinDraw < 1 / 10
    · rw [if_pos hc, if_pos hc]
    · rw [if_neg hc, if_neg hc]
  · rw [afterIter_ok e hok]
    by_cases hc : e.coinDraw < 1 / 10
    · rw [if_pos hc, if_pos hc]
    · rw [if_neg hc, if_neg hc, zero_add]

/-- Environment of an after-hours iteration with a middling coin draw
and pacing draw, used to witness C6 at a concrete input. -/
def afterEnvW : IterEnv :=
  { hour := 18, selectDraw := 0, coinDraw := 1 / 2, pauseDraw := 1 / 2,
    execFails := false, dwell := 3 }

theorem C6_after_hours_branch_witness :
    iterStep work_activities afterEnvW = afterIter afterEnvW ∧
    (afterIter afterEnvW).executed =
      (if afterEnvW.coinDraw < 1 / 10 then some Activity.SecurityAction else none) ∧
    (afterIter afterEnvW).entries =
      (if afterEnvW.coinDraw < 1 / 10 then [LogEntry.success Activity.SecurityAction]
       else []) ∧
    (afterIter afterEnvW).elapsed =
      (if afterEnvW.coinDraw < 1 / 10 then afterEnvW.dwell else 0) +
        random_uniform 300 1800 afterEnvW.pauseDraw ∧
    300 ≤ random_uniform 300 1800 afterEnvW.pauseDraw ∧
    random_uniform 300 1800 afterEnvW.pauseDraw ≤ 1800 :=
  C6_after_hours_branch work_activities afterEnvW (by decide) rfl
    (by norm_num [afterEnvW]) (by norm_num [afterEnvW])

/-- C7, counterexample.  `stop_simulation` logs the stopped banner on
every call: calling it twice starting from a running simulator leaves
two identical stopped entries in the log, so the second call is not a
no-op and the state after two calls differs from the state after one. -/
theorem C7_stop_logs_twice_counterexample :
    (stop_simulation (stop_simulation (SimCtl.mk true []))).log.count
        "Banking employee simulation stopped" = 2 ∧
    stop_simulation (stop_simulation (SimCtl.mk true [])) ≠
      stop_simulation (SimCtl.mk true []) := by
  constructor <;> decide

/-- C7, amended.  `stop_simulation` is idempotent on the `is_running`
flag — after one call the flag is false and a second call leaves it
false — but it is not a no-op on an already-stopped simulator: every
call, including repeated ones, appends one more stopped log entry, so
two calls in a row produce two stopped entries. -/
theorem C7_stop_idempotent_amended (s : SimCtl) :
    (stop_simulation s).is_running = false ∧
    (stop_simulation (stop_simulation s)).is_running = false ∧
    (stop_simulation (stop_simulation s)).log =
      s.log ++ ["Banking employee simulation stopped",
                "Banking employee simulation stopped"] := by
  refine ⟨rfl, rfl, ?_⟩
  simp [stop_simulation]

/-- C8.  For draws in the unit interval, `generate_daily_report` always
returns counters inside their documented fixed ranges —
`files_created ∈ [5, 15]`, `applications_used ∈ [3, 8]`,
`network_activities ∈ [10, 25]`, `security_events ∈ [2, 8]`,
`work_hours ∈ [7.5, 9.0]`, `suspicious_activities ∈ [0, 2]` — with a
date equal to the call time's date and the employee and department
labels attached unchanged. -/
theorem C8_daily_report_ranges (employee department : String) (now : Timestamp)
    (d : ReportDraws)
    (hf : 0 ≤ d.filesR ∧ d.filesR < 1) (ha : 0 ≤ d.appsR ∧ d.appsR < 1)
    (hn : 0 ≤ d.netR ∧ d.netR < 1) (hs : 0 ≤ d.secR ∧ d.secR < 1)
    (hh : 0 ≤ d.hoursR ∧ d.hoursR ≤ 1) (hu : 0 ≤ d.suspR ∧ d.suspR < 1) :
    (generate_daily_report employee department now d).date =
      (now.year, now.month, now.day) ∧
    (generate_daily_report employee department now d).employee = employee ∧
    (generate_daily_report employee department now d).department = department ∧
    (5 ≤ (generate_daily_report employee department now d).files_created ∧
      (generate_daily_report employee department now d).files_created ≤ 15) ∧
    (3 ≤ (generate_daily_report employee department now d).applications_used ∧
      (generate_daily_report employee department now d).applications_used ≤ 8) ∧
    (10 ≤ (generate_daily_report employee department now d).network_activities ∧
      (generate_daily_report employee department now d).network_activities ≤ 25) ∧
    (2 ≤ (generate_daily_report employee department now d).security_events ∧
      (generate_daily_report employee department now d).security_events ≤ 8) ∧
    (15 / 2 ≤ (generate_daily_report employee department now d).work_hours ∧
      (generate_daily_report employee department now d).work_hours ≤ 9) ∧
    (generate_daily_report employee department now d).suspicious_activities ≤ 2 := by
  have hu1 := random_uniform_bounds (15 / 2) 9 d.hoursR (by norm_num) hh.1 hh.2
  have hr := round1_bounds (random_uniform (15 / 2) 9 d.hoursR) hu1.1 hu1.2
  exact ⟨rfl, rfl, rfl,
    ⟨le_random_randint 5 15 d.filesR,
     random_randint_le 5 15 d.filesR (by norm_num) hf.1 hf.2⟩,
    ⟨le_random_randint 3 8 d.appsR,
     random_randint_le 3 8 d.appsR (by norm_num) ha.1 ha.2⟩,
    ⟨le_random_randint 10 25 d.netR,
     random_randint_le 10 25 d.netR (by norm_num) hn.1 hn.2⟩,
    ⟨le_random_randint 2 8 d.secR,
     random_randint_le 2 8 d.secR (by norm_num) hs.1 hs.2⟩,
    hr,
    random_randint_le 0 2 d.suspR (by norm_num) hu.1 hu.2⟩

/-- The call timestamp used to witness the report and security-event
theorems at concrete inputs. -/
def tsW : Timestamp := { year := 2026, month := 10, day := 12, hour := 10 }

/-- Concrete middle-of-the-range draws for `generate_daily_report`. -/
def drawsW : ReportDraws :=
  { filesR := 1 / 2, appsR := 1 / 2, netR := 1 / 2, secR := 1 / 2,
    hoursR := 1 / 2, suspR := 1 / 2 }

theorem C8_daily_report_ranges_witness :
    (generate_daily_report "Sarah Chen" "Finance" tsW drawsW).date =
      (tsW.year, tsW.month, tsW.day) ∧
    (generate_daily_report "Sarah Chen" "Finance" tsW drawsW).employee = "Sarah Chen" ∧
    (generate_daily_report "Sarah Chen" "Finance" tsW drawsW).department = "Finance" ∧
    (5 ≤ (generate_daily_report "Sarah Chen" "Finance" tsW drawsW).files_created ∧
      (generate_daily_report "Sarah Chen" "Finance" tsW drawsW).files_created ≤ 15) ∧
    (3 ≤ (generate_daily_report "Sarah Chen" "Finance" tsW drawsW).applications_used ∧
      (generate_daily_report "Sarah Chen" "Finance" tsW drawsW).applications_used ≤ 8) ∧
    (10 ≤ (generate_daily_report "Sarah Chen" "Finance" tsW drawsW).network_activities ∧
      (generate_daily_report "Sarah Chen" "Finance" tsW drawsW).network_activities ≤ 25) ∧
    (2 ≤ (generate_daily_report "Sarah Chen" "Finance" tsW drawsW).security_events ∧
      (generate_daily_report "Sarah Chen" "Finance" tsW drawsW).security_events ≤ 8) ∧
    (15 / 2 ≤ (generate_daily_report "Sarah Chen" "Finance" tsW drawsW).work_hours ∧
      (generate_daily_report "Sarah Chen" "Finance" tsW drawsW).work_hours ≤ 9) ∧
    (generate_daily_report "Sarah Chen" "Finance" tsW drawsW).suspicious_activities ≤ 2 :=
  C8_daily_report_ranges "Sarah Chen" "Finance" tsW drawsW
    (by norm_num [drawsW]) (by norm_num [drawsW]) (by norm_num [drawsW])
    (by norm_num [drawsW]) (by norm_num [drawsW]) (by norm_num [drawsW])

/-- C9.  `backup_files` only creates the dated `Backups/<YYYYMMDD>`
directory (idempotently: nothing changes if it already exists) and
iterates over the files of `Financial_Reports` and `Client_Data`
sleeping 0.1 s per file plus a `random.uniform(5, 10)` dwell: the file
list — every file's content included — is unchanged, so in particular
the set of files inside the backup directory is exactly what it was
before the call. -/
theorem C9_backup_frame (fs : FileSys) (dateStr : String) (r : ℚ) :
    (backup_files fs dateStr r).1.files = fs.files ∧
    backup_dir_name dateStr ∈ (backup_files fs dateStr r).1.dirs ∧
    (backup_files fs dateStr r).1.dirs =
      (if backup_dir_name dateStr ∈ fs.dirs then fs.dirs
       else fs.dirs ++ [backup_dir_name dateStr]) ∧
    (backup_files fs dateStr r).1.files.filter
        (fun f => f.dir = backup_dir_name dateStr) =
      fs.files.filter (fun f => f.dir = backup_dir_name dateStr) ∧
    (backup_files fs dateStr r).2 =
      (1 / 10) * ((fs.files.filter
        (fun f => f.dir = "Financial_Reports" ∨ f.dir = "Client_Data")).length : ℚ)
        + random_uniform 5 10 r := by
  unfold backup_files mkdir_p
  by_cases h : backup_dir_name dateStr ∈ fs.dirs
  · simp [h]
  · simp [h]

/-- C10.  Every record `simulate_security_actions` appends to the
structured `security_events.log` sink has `result` equal to the literal
`"Success"` — the sink never records a failed security action — and an
`ip_address` of the form `192.168.1.N` with `N ∈ [100, 200]`. -/
theorem C10_security_event_invariant (employee department : String)
    (now : Timestamp) (actionR ipR dwellR : ℚ)
    (h0 : 0 ≤ ipR) (h1 : ipR < 1) :
    (simulate_security_actions employee department now actionR ipR dwellR).1.result
      = "Success" ∧
    ∃ n : ℕ, 100 ≤ n ∧ n ≤ 200 ∧
      (simulate_security_actions employee department now actionR ipR dwellR).1.ip_address
        = "192.168.1." ++ toString n :=
  ⟨rfl, random_randint 100 200 ipR, le_random_randint 100 200 ipR,
   random_randint_le 100 200 ipR (by norm_num) h0 h1, rfl⟩

theorem C10_security_event_invariant_witness :
    (simulate_security_actions "Sarah Chen" "Finance" tsW (1 / 4) (1 / 2) (1 / 2)).1.result
      = "Success" ∧
    ∃ n : ℕ, 100 ≤ n ∧ n ≤ 200 ∧
      (simulate_security_actions "Sarah Chen" "Finance" tsW (1 / 4) (1 / 2) (1 / 2)).1.ip_address
        = "192.168.1." ++ toString n :=
  C10_security_event_invariant "Sarah Chen" "Finance" tsW (1 / 4) (1 / 2) (1 / 2)
    (by norm_num) (by norm_num)
